import Mathlib

/-!
# Verification of the AI_SOC alert-processing core

Shallow embedding, in Lean 4, of the claim-relevant parts of the repository:

* `services/common/rate_limit.py` — `SlidingWindowRateLimiter`
  (`is_allowed`, `get_remaining_requests`, `_cleanup_old_entries`);
* `services/common/integration.py` — `async_retry`, `ServiceClient.post`
  (`raise_for_status` semantics), `FallbackHandler.ml_fallback` /
  `llm_fallback`;
* `services/common/pipeline.py` — `AlertPipeline.process_alert`, the five
  stage methods, `_should_create_case`, `batch_process`, `PipelineMetrics`.

Modelling conventions:

* Python `float` time values become `Rat` (exact rational arithmetic; the
  algorithms only add, subtract and compare times).
* Python dict/JSON values become the inductive `JVal`; a dict is a key-value
  list in insertion order, matching Python dict ordering semantics.
* Python exceptions become `Except`/`Option`: a collaborator call is a
  function into `Except String JVal`; a spot where the Python code itself can
  raise (`deque[0]` on an empty deque, `list.index` on a missing element)
  is modelled with `Option`/`Except` at that spot.
* Wall-clock reads (`time.time()`, `datetime.now()`) become explicit
  parameters; stage durations, which no claim observes, are recorded as `0`.
-/

/-! ## Section 1: `SlidingWindowRateLimiter` (services/common/rate_limit.py)

The Python object keys a `defaultdict` of deques by client id.  A Python dict
cannot hold duplicate keys, so `request_log` is embedded extensionally as a
total function `String → List Rat` whose default value is the empty list
(exactly the `defaultdict(deque)` read semantics).  Deleting an empty entry
(done by `_cleanup_old_entries`) and the `defaultdict` auto-insertion of an
empty deque are both invisible in this extensional view. -/

structure SlidingWindowRateLimiter where
  requests_per_window : Nat
  window_seconds : Rat
  cleanup_interval : Rat
  request_log : String → List Rat
  last_cleanup : Rat

namespace SlidingWindowRateLimiter

/-- The in-place pruning loop
`while timestamps and timestamps[0] < cutoff_time: timestamps.popleft()`:
drop entries from the front while the front entry is strictly older than the
cutoff.  (Not a filter: the loop stops at the first retained entry.) -/
def pruneOld (cutoff : Rat) : List Rat → List Rat
  | [] => []
  | t :: ts => if t < cutoff then pruneOld cutoff ts else t :: ts

/-- `_cleanup_old_entries`: if the cleanup interval has not elapsed, do
nothing; otherwise prune every client's log with cutoff
`current_time - window_seconds` and stamp `last_cleanup`.  (The Python code
also deletes clients whose pruned deque is empty; extensionally that is the
empty list either way.) -/
def cleanup (l : SlidingWindowRateLimiter) (current_time : Rat) :
    SlidingWindowRateLimiter :=
  if current_time - l.last_cleanup < l.cleanup_interval then l
  else
    { l with
      request_log := fun c => pruneOld (current_time - l.window_seconds) (l.request_log c),
      last_cleanup := current_time }

/-- `is_allowed(client_id)` at time `current_time`.

Returns `none` exactly when the Python method would raise: the rejection
branch reads `timestamps[0]`, an `IndexError` on an empty deque (reachable
only when `requests_per_window = 0`).  Otherwise returns
`some ((allowed, retry_after), limiter')` where `limiter'` is the
post-call state (the pruning mutates the stored deque in place; an admitted
call additionally appends `current_time`). -/
def is_allowed (l : SlidingWindowRateLimiter) (client_id : String)
    (current_time : Rat) :
    Option ((Bool × Option Rat) × SlidingWindowRateLimiter) :=
  let cutoff_time := current_time - l.window_seconds
  let l1 := cleanup l current_time
  let timestamps := pruneOld cutoff_time (l1.request_log client_id)
  if l1.requests_per_window ≤ timestamps.length then
    match timestamps.head? with
    | none => none
    | some oldest_timestamp =>
        some ((false, some (max 0 (oldest_timestamp + l1.window_seconds - current_time))),
          { l1 with
            request_log := fun c => if c = client_id then timestamps else l1.request_log c })
  else
    some ((true, none),
      { l1 with
        request_log := fun c =>
          if c = client_id then timestamps ++ [current_time] else l1.request_log c })

/-- `get_remaining_requests(client_id)` at time `current_time`.  Counts the
timestamps **strictly newer** than the cutoff (`ts > cutoff_time` in the
source) and returns `max(0, requests_per_window - valid_count)` together
with the (unchanged) limiter state: the Python method only reads. -/
def get_remaining_requests (l : SlidingWindowRateLimiter) (client_id : String)
    (current_time : Rat) : Int × SlidingWindowRateLimiter :=
  let cutoff_time := current_time - l.window_seconds
  let timestamps := l.request_log client_id
  let valid_count := (timestamps.filter (fun ts => cutoff_time < ts)).length
  (max 0 ((l.requests_per_window : Int) - valid_count), l)

/-- Running a sequence of `is_allowed` calls `(client_id, time)` in order,
threading the limiter state; `none` if any call raises. -/
def runCalls (l : SlidingWindowRateLimiter) :
    List (String × Rat) → Option (List (Bool × Option Rat) × SlidingWindowRateLimiter)
  | [] => some ([], l)
  | (c, t) :: rest =>
    match is_allowed l c t with
    | none => none
    | some (r, l') => (runCalls l' rest).map (fun p => (r :: p.1, p.2))

/-! ### Basic lemmas about pruning and cleanup -/

/-- `__init__(requests_per_window, window_seconds, cleanup_interval=300)`
executed at construction time `now` (`self.last_cleanup = time.time()`),
with an empty request log. -/
def init (requests_per_window : Nat)
    (window_seconds cleanup_interval now : Rat) : SlidingWindowRateLimiter :=
  { requests_per_window := requests_per_window,
    window_seconds := window_seconds,
    cleanup_interval := cleanup_interval,
    request_log := fun _ => [],
    last_cleanup := now }

/-- A limiter state with limit 1 and one retained timestamp (at `t = 10`)
for client "A": the next call inside the window is rejected. -/
def rejLimiter : SlidingWindowRateLimiter :=
  { requests_per_window := 1, window_seconds := 60, cleanup_interval := 300,
    request_log := fun c => if c = "A" then [10] else [], last_cleanup := 0 }

/-- A limiter state whose only timestamp for client "A" sits exactly on the
window cutoff when queried at `t = 60` (window 60): retained by
`is_allowed`'s pruning rule (`< cutoff` removes), not counted by
`get_remaining_requests` (`> cutoff` counts). -/
def boundaryLimiter : SlidingWindowRateLimiter :=
  { requests_per_window := 1, window_seconds := 60, cleanup_interval := 300,
    request_log := fun c => if c = "A" then [0] else [], last_cleanup := 0 }

/-- A limiter state with a sorted two-entry history for client "A". -/
def sortedLimiter : SlidingWindowRateLimiter :=
  { requests_per_window := 1, window_seconds := 60, cleanup_interval := 300,
    request_log := fun c => if c = "A" then [10, 20] else [], last_cleanup := 0 }

end SlidingWindowRateLimiter

/-! ## Section 2: retry policy and `ServiceClient`
(services/common/integration.py) -/

/-- Failure classes of one HTTP request attempt (httpx): network-level
timeout, connection-level failure, or `HTTPStatusError` raised by
`Response.raise_for_status()` for a 4xx/5xx response.  All three are
Python `Exception` subclasses, so all three are caught by `async_retry`'s
default `exceptions=(Exception,)`. -/
inductive HttpError where
  | timeout : HttpError
  | connect_error : HttpError
  | http_status : Nat → HttpError
deriving DecidableEq

structure HttpResponse where
  status_code : Nat
deriving DecidableEq

/-- `httpx.Response.raise_for_status()`: raises `HTTPStatusError` for any
4xx (client error) or 5xx (server error) status, else returns the
response. -/
def raise_for_status (r : HttpResponse) : Except HttpError HttpResponse :=
  if 400 ≤ r.status_code ∧ r.status_code < 600 then
    Except.error (HttpError.http_status r.status_code)
  else Except.ok r

/-- The loop of `async_retry(max_attempts, delay, backoff,
exceptions=(Exception,))` around an attempt-indexed fallible call (the
attempt index models that a real call can behave differently on each
retry; `asyncio.sleep` delays are timing only and not modelled):
`for attempt in range(1, max_attempts + 1): try: return await func(...)
except exceptions as e: last_exception = e …` followed by
`raise last_exception`.  Arguments: current attempt number, attempts left,
last exception seen.  `none` models the `max_attempts = 0` corner where
the Python code would `raise None`. -/
def retry_from {E A : Type} (f : Nat → Except E A) :
    Nat → Nat → Option E → Option (Except E A)
  | _, 0, last => last.map Except.error
  | attempt, k + 1, _ =>
    match f attempt with
    | Except.ok a => some (Except.ok a)
    | Except.error e => retry_from f (attempt + 1) k (some e)

/-- `async_retry(max_attempts)` applied to an attempt-indexed call,
starting at attempt 1 with no last exception. -/
def async_retry {E A : Type} (max_attempts : Nat) (f : Nat → Except E A) :
    Option (Except E A) :=
  retry_from f 1 max_attempts none

/-- One attempt of a `ServiceClient` request: perform the transport call
(`self.client.get/post/put`), then `response.raise_for_status()`.  Both
network failures and status errors surface as exceptions. -/
def request_attempt (transport : Nat → Except HttpError HttpResponse)
    (attempt : Nat) : Except HttpError HttpResponse :=
  match transport attempt with
  | Except.error e => Except.error e
  | Except.ok r => raise_for_status r

/-- `ServiceClient.get`, decorated
`@async_retry(max_attempts=3, delay=1.0, backoff=2.0)`. -/
def ServiceClient.get (transport : Nat → Except HttpError HttpResponse) :
    Option (Except HttpError HttpResponse) :=
  async_retry 3 (request_attempt transport)

/-- `ServiceClient.post`, decorated
`@async_retry(max_attempts=3, delay=1.0, backoff=2.0)`. -/
def ServiceClient.post (transport : Nat → Except HttpError HttpResponse) :
    Option (Except HttpError HttpResponse) :=
  async_retry 3 (request_attempt transport)

/-- `ServiceClient.put`, decorated
`@async_retry(max_attempts=3, delay=1.0, backoff=2.0)`. -/
def ServiceClient.put (transport : Nat → Except HttpError HttpResponse) :
    Option (Except HttpError HttpResponse) :=
  async_retry 3 (request_attempt transport)

/-- A transport whose first attempt yields an HTTP 404 response and whose
later attempts yield HTTP 200. -/
def transport404then200 : Nat → Except HttpError HttpResponse :=
  fun attempt => if attempt = 1 then Except.ok ⟨404⟩ else Except.ok ⟨200⟩

/-! ## Section 3: dynamic dict values

Python dict/JSON payloads passed between pipeline stages become `JVal`:
an object is its key-value list in insertion order (Python dicts preserve
insertion order; the pipeline never creates duplicate keys). -/

inductive JVal where
  | null : JVal
  | bool : Bool → JVal
  | num : Rat → JVal
  | str : String → JVal
  | arr : List JVal → JVal
  | obj : List (String × JVal) → JVal

namespace JVal

mutual

/-- Boolean equality on dict values (Python `==` on JSON-like data; used
only to key the severity-counter dict). -/
def jbeq : JVal → JVal → Bool
  | JVal.str u, JVal.str w => u == w
  | JVal.num u, JVal.num w => u == w
  | JVal.bool u, JVal.bool w => u == w
  | JVal.null, JVal.null => true
  | JVal.arr us, JVal.arr ws => jbeqList us ws
  | JVal.obj us, JVal.obj ws => jbeqObj us ws
  | _, _ => false

/-- Elementwise `jbeq` on arrays. -/
def jbeqList : List JVal → List JVal → Bool
  | [], [] => true
  | u :: us, w :: ws => jbeq u w && jbeqList us ws
  | _, _ => false

/-- Pairwise `jbeq` on dict entry lists. -/
def jbeqObj : List (String × JVal) → List (String × JVal) → Bool
  | [], [] => true
  | (uk, uv) :: us, (wk, wv) :: ws => uk == wk && jbeq uv wv && jbeqObj us ws
  | _, _ => false

end

/-- `d.get(key)` on a dict: the stored value, or `None` when the key is
missing (also when the receiver is not a dict). -/
def jget : JVal → String → JVal
  | obj kvs, k =>
    match kvs.lookup k with
    | some v => v
    | none => null
  | _, _ => null

/-- `d.get(key, default)`. -/
def jgetD (v : JVal) (k : String) (dflt : JVal) : JVal :=
  match v with
  | obj kvs =>
    match kvs.lookup k with
    | some w => w
    | none => dflt
  | _ => dflt

/-- `key in d`. -/
def hasKey (v : JVal) (k : String) : Bool :=
  match v with
  | obj kvs => kvs.any (fun p => p.1 == k)
  | _ => false

/-- `d[key] = value` on a key-value list: override in place if the key
exists (Python keeps the original position), else append. -/
def setKey (kvs : List (String × JVal)) (k : String) (v : JVal) :
    List (String × JVal) :=
  if kvs.any (fun p => p.1 == k) then
    kvs.map (fun p => if p.1 == k then (k, v) else p)
  else kvs ++ [(k, v)]

/-- The dict-display merge `{**base, k1: v1, …}`: each new pair overrides
in place or appends.  (Non-dict `base` does not occur in the pipeline.) -/
def jmerge (base : JVal) (updates : List (String × JVal)) : JVal :=
  match base with
  | obj kvs => obj (updates.foldl (fun acc p => setKey acc p.1 p.2) kvs)
  | _ => obj updates

/-- Python `==` between a value and a string literal
(`severity == "critical"`, `severity in ["critical", "high"]`):
true only for an equal string. -/
def eqStr (v : JVal) (s : String) : Bool :=
  match v with
  | str t => t == s
  | _ => false

/-- Python truthiness (`not features`, `if tactics:`,
`if … .get("context_documents"):`). -/
def truthy : JVal → Bool
  | null => false
  | bool b => b
  | num q => q != 0
  | str s => s != ""
  | arr l => !l.isEmpty
  | obj kvs => !kvs.isEmpty

mutual

/-- Python `str()` of a JSON-like value, as `ml_fallback` consumes it via
`str(alert).lower()` (dicts/lists printed in insertion order; numbers via
their rational rendering — only keyword containment is ever observed). -/
def pyStr : JVal → String
  | null => "None"
  | bool true => "True"
  | bool false => "False"
  | num q => toString q
  | str s => "\x27" ++ s ++ "\x27"
  | arr l => "[" ++ pyStrList l ++ "]"
  | obj kvs => "\x7b" ++ pyStrObj kvs ++ "\x7d"

/-- Comma-separated renderings of a list's elements. -/
def pyStrList : List JVal → String
  | [] => ""
  | [x] => pyStr x
  | x :: xs => pyStr x ++ ", " ++ pyStrList xs

/-- Comma-separated `key: value` renderings of a dict's entries. -/
def pyStrObj : List (String × JVal) → String
  | [] => ""
  | [(k, v)] => "\x27" ++ k ++ "\x27: " ++ pyStr v
  | (k, v) :: xs => "\x27" ++ k ++ "\x27: " ++ pyStr v ++ ", " ++ pyStrObj xs

end

/-- Python `str(x)` as interpolated inside an f-string (a string formats
without quotes; other values as `str()`). -/
def pyFStr (v : JVal) : String :=
  match v with
  | str s => s
  | v => pyStr v

/-- The string content of a string value (`""` otherwise; the pipeline
only reaches the non-string case where Python, inside a stage's own
try-block, would raise — stage output shapes are unaffected). -/
def asString (v : JVal) : String :=
  match v with
  | str s => s
  | _ => ""

/-- The string entries of an array value. -/
def strList (v : JVal) : List String :=
  match v with
  | arr l => l.filterMap (fun x => match x with | str s => some s | _ => none)
  | _ => []

end JVal

/-- Substring containment (`keyword in text` for a non-empty keyword):
`splitOn` produces more than one piece exactly when the pattern occurs. -/
def containsSub (s pat : String) : Bool :=
  (s.splitOn pat).length != 1

/-! ## Section 4: fallbacks, metrics and the alert pipeline
(services/common/integration.py, services/common/pipeline.py) -/

namespace FallbackHandler

/-- `FallbackHandler.ml_fallback(alert)`: rule-based severity from a
keyword scan over `str(alert).lower()`; returns the detection-result shape
plus the `fallback: True` marker and fixed confidence 0.6. -/
def ml_fallback (alert : JVal) : JVal :=
  let text := (JVal.pyStr alert).toLower
  let severity :=
    if ["ransomware", "cryptolocker", "exploit"].any (fun kw => containsSub text kw) then
      "critical"
    else if ["brute", "force", "scan"].any (fun kw => containsSub text kw) then
      "high"
    else "medium"
  JVal.obj [
    ("prediction", JVal.str
      (if severity == "critical" || severity == "high" then "ATTACK" else "BENIGN")),
    ("confidence", JVal.num (6/10)),
    ("fallback", JVal.bool true),
    ("severity", JVal.str severity)]

/-- `FallbackHandler.llm_fallback(alert)`: fixed template triage result
with the `fallback: True` marker (the alert argument is unused). -/
def llm_fallback (_alert : JVal) : JVal :=
  JVal.obj [
    ("severity", JVal.str "medium"),
    ("confidence", JVal.num (5/10)),
    ("analysis", JVal.str "Automated analysis unavailable. Manual review recommended."),
    ("recommendations", JVal.arr
      [JVal.str "Review alert manually", JVal.str "Check system logs"]),
    ("fallback", JVal.bool true)]

end FallbackHandler

/-- `PipelineMetrics`: processed/failed counters, per-severity counts
(keyed by the recorded severity value) and per-stage duration samples. -/
structure PipelineMetrics where
  total_processed : Nat
  total_failed : Nat
  severity_counts : List (JVal × Nat)
  stage_times : List (String × List Rat)

namespace PipelineMetrics

/-- `PipelineMetrics.__init__`. -/
def initMetrics : PipelineMetrics :=
  { total_processed := 0, total_failed := 0, severity_counts := [], stage_times := [] }

/-- `record_stage_time(stage, duration)`. -/
def record_stage_time (m : PipelineMetrics) (stage : String) (duration : Rat) :
    PipelineMetrics :=
  let times :=
    if m.stage_times.any (fun p => p.1 == stage) then
      m.stage_times.map (fun p => if p.1 == stage then (p.1, p.2 ++ [duration]) else p)
    else m.stage_times ++ [(stage, [duration])]
  { m with stage_times := times }

/-- `record_severity(severity)`:
`severity_counts[severity] = severity_counts.get(severity, 0) + 1`. -/
def record_severity (m : PipelineMetrics) (severity : JVal) : PipelineMetrics :=
  let counts :=
    if m.severity_counts.any (fun p => JVal.jbeq p.1 severity) then
      m.severity_counts.map (fun p => if JVal.jbeq p.1 severity then (p.1, p.2 + 1) else p)
    else m.severity_counts ++ [(severity, 1)]
  { m with severity_counts := counts }

end PipelineMetrics

/-- `AlertPipeline`: configuration plus its downstream collaborators as
fallible calls — `ml_client.predict` (applied to the features payload),
`triage_client.analyze_alert`, `rag_client.retrieve` (applied to the
query), `thehive_client.create_case`.  `Except.error e` models the call
raising (timeout, connection failure, non-2xx, malformed body — a stage
catches all of them alike). -/
structure AlertPipeline where
  predict : JVal → Except String JVal
  analyze_alert : JVal → Except String JVal
  retrieve : String → Except String JVal
  create_case : JVal → Except String JVal
  enable_ml : Bool
  enable_rag : Bool
  thehive_threshold : String
  thehive_base_url : String

/-- `_extract_features(alert)`: the alert's pre-extracted `features` entry
when present; the `flow` branch is an unimplemented `pass`, so everything
else yields `None`. -/
def extract_features (alert : JVal) : Option JVal :=
  if JVal.hasKey alert "features" then some (JVal.jget alert "features") else none

/-- The `enriched_alert` dict built inside `_triage_stage` and sent to the
triage collaborator: `{**alert, "ml_prediction":
ml_result.get("prediction"), "ml_confidence":
ml_result.get("confidence")}`.  Note that only these two derived keys are
copied from the detection output — not, in particular, a `fallback`
marker. -/
def enrichedAlert (alert ml_result : JVal) : JVal :=
  JVal.jmerge alert [
    ("ml_prediction", JVal.jget ml_result "prediction"),
    ("ml_confidence", JVal.jget ml_result "confidence")]

/-- `_build_rag_query(alert, triage_result)`: rule description joined with
the triage stage's MITRE tactic labels. -/
def build_rag_query (alert triage_result : JVal) : String :=
  let alert_type :=
    JVal.asString (JVal.jgetD (JVal.jgetD alert "rule" (JVal.obj [])) "description" (JVal.str ""))
  let tactics := JVal.strList (JVal.jgetD triage_result "mitre_tactics" (JVal.arr []))
  let query_parts :=
    if tactics.isEmpty then [alert_type]
    else [alert_type, "MITRE tactics: " ++ String.intercalate ", " tactics]
  String.intercalate " " query_parts

/-- `_build_thehive_case(alert, triage_result, enrichment_result)`. -/
def build_thehive_case (alert triage_result : JVal)
    (enrichment_result : Option JVal) : JVal :=
  let severity := JVal.jgetD triage_result "severity" (JVal.str "medium")
  let severity_map : List (String × Nat) :=
    [("info", 1), ("low", 1), ("medium", 2), ("high", 3), ("critical", 4)]
  let sevNum : Nat :=
    match severity with
    | JVal.str s =>
      match severity_map.lookup s with
      | some n => n
      | none => 2
    | _ => 2
  let base_parts : List String := [
    "**Alert ID:** " ++ JVal.pyFStr (JVal.jget alert "id"),
    "**Source:** " ++
      JVal.pyFStr (JVal.jgetD (JVal.jgetD alert "agent" (JVal.obj [])) "name" (JVal.str "Unknown")),
    "**ML Prediction:** " ++ JVal.pyFStr (JVal.jgetD alert "ml_prediction" (JVal.str "N/A")),
    "**Confidence:** " ++ JVal.pyFStr (JVal.jgetD triage_result "confidence" (JVal.str "N/A")),
    "",
    "**Analysis:**",
    JVal.pyFStr (JVal.jgetD triage_result "analysis" (JVal.str "No analysis available")),
    "",
    "**Recommendations:**",
    String.intercalate "\n"
      ((JVal.strList (JVal.jgetD triage_result "recommendations" (JVal.arr []))).map
        (fun r => "- " ++ r))]
  let description_parts :=
    match enrichment_result with
    | some er =>
      if JVal.truthy (JVal.jgetD er "context_documents" JVal.null) then
        let docs :=
          match JVal.jgetD er "context_documents" (JVal.arr []) with
          | JVal.arr l => l
          | _ => []
        base_parts ++ ["", "**Related Context:**",
          String.intercalate "\n"
            ((docs.take 2).map (fun doc =>
              "- " ++ (JVal.asString (JVal.jgetD doc "document" (JVal.str ""))).take 200))]
      else base_parts
    | none => base_parts
  JVal.obj [
    ("title", JVal.jgetD (JVal.jgetD alert "rule" (JVal.obj [])) "description"
      (JVal.str "Security Alert")),
    ("description", JVal.str (String.intercalate "\n" description_parts)),
    ("severity", JVal.num sevNum),
    ("tags", JVal.arr [JVal.str "automated", JVal.str "ai-soc", severity]),
    ("tlp", JVal.num 2),
    ("pap", JVal.num 2),
    ("customFields", JVal.obj [
      ("alertId", JVal.jget alert "id"),
      ("mlConfidence", JVal.jget triage_result "confidence"),
      ("mitreTactics", JVal.jgetD triage_result "mitre_tactics" (JVal.arr []))])]

/-- `list.index(x)`: position of the first occurrence; `none` models the
`ValueError` raised when the element is absent. -/
def indexOf : List String → String → Option Nat
  | [], _ => none
  | x :: xs, s => if x == s then some 0 else (indexOf xs s).map (· + 1)

/-- The fixed severity ordering of `_should_create_case`. -/
def threshold_order : List String := ["info", "low", "medium", "high", "critical"]

namespace AlertPipeline

/-- `_ml_detection_stage(alert)`: record a skip (not a failure) when the
features are absent/falsy or ML is disabled; otherwise call the detection
collaborator, replacing any raised error by
`FallbackHandler.ml_fallback(alert)`.  Stage durations are recorded as 0
(wall clock is outside the model); on the fallback path the Python code
raises before `record_stage_time`, so no time is recorded. -/
def ml_detection_stage (p : AlertPipeline) (m : PipelineMetrics) (alert : JVal) :
    JVal × PipelineMetrics :=
  match extract_features alert with
  | none =>
    (JVal.obj [("skipped", JVal.bool true), ("reason", JVal.str "no_features_or_disabled")], m)
  | some features =>
    if !JVal.truthy features || !p.enable_ml then
      (JVal.obj [("skipped", JVal.bool true), ("reason", JVal.str "no_features_or_disabled")], m)
    else
      match p.predict features with
      | Except.ok ml_result =>
        (JVal.obj [
          ("prediction", JVal.jget ml_result "prediction"),
          ("confidence", JVal.jget ml_result "confidence"),
          ("model", JVal.jget ml_result "model_used"),
          ("duration_ms", JVal.num 0)],
         m.record_stage_time "ml_detection" 0)
      | Except.error _ => (FallbackHandler.ml_fallback alert, m)

/-- `_triage_stage(alert, ml_result)`: send the enriched alert to the
triage collaborator, replacing any raised error by
`FallbackHandler.llm_fallback(alert)`. -/
def triage_stage (p : AlertPipeline) (m : PipelineMetrics) (alert ml_result : JVal) :
    JVal × PipelineMetrics :=
  match p.analyze_alert (enrichedAlert alert ml_result) with
  | Except.ok triage_result =>
    (JVal.obj [
      ("severity", JVal.jget triage_result "severity"),
      ("confidence", JVal.jget triage_result "confidence"),
      ("iocs", JVal.jgetD triage_result "iocs" (JVal.arr [])),
      ("recommendations", JVal.jgetD triage_result "recommendations" (JVal.arr [])),
      ("mitre_tactics", JVal.jgetD triage_result "mitre_tactics" (JVal.arr [])),
      ("duration_ms", JVal.num 0)],
     m.record_stage_time "triage" 0)
  | Except.error _ => (FallbackHandler.llm_fallback alert, m)

/-- `_enrichment_stage(alert, triage_result)`: best-effort RAG retrieval;
an error is recorded in the stage output, never raised. -/
def enrichment_stage (p : AlertPipeline) (m : PipelineMetrics)
    (alert triage_result : JVal) : JVal × PipelineMetrics :=
  let query := build_rag_query alert triage_result
  match p.retrieve query with
  | Except.ok rag_result =>
    (JVal.obj [
      ("context_documents", JVal.jgetD rag_result "results" (JVal.arr [])),
      ("query", JVal.str query),
      ("duration_ms", JVal.num 0)],
     m.record_stage_time "enrichment" 0)
  | Except.error e =>
    (JVal.obj [("error", JVal.str e), ("context_documents", JVal.arr [])], m)

/-- `_case_creation_stage(alert, triage_result, enrichment_result)`:
build and submit the TheHive case; an error is recorded in the stage
output, never raised. -/
def case_creation_stage (p : AlertPipeline) (m : PipelineMetrics)
    (alert triage_result : JVal) (enrichment_result : Option JVal) :
    JVal × PipelineMetrics :=
  let case_data := build_thehive_case alert triage_result enrichment_result
  match p.create_case case_data with
  | Except.ok case_result =>
    let case_id := JVal.jgetD case_result "id" (JVal.jget case_result "_id")
    (JVal.obj [
      ("case_id", case_id),
      ("case_url", JVal.str (p.thehive_base_url ++ "/case/" ++ JVal.pyFStr case_id)),
      ("duration_ms", JVal.num 0)],
     m.record_stage_time "case_creation" 0)
  | Except.error e =>
    (JVal.obj [("error", JVal.str e), ("case_id", JVal.null)], m)

/-- `_response_stage(alert, triage_result)`: a purely local action
decision from the triage severity (no remote call; "Shuffle integration
pending"). -/
def response_stage (m : PipelineMetrics) (triage_result : JVal) :
    JVal × PipelineMetrics :=
  let severity := JVal.jget triage_result "severity"
  let actions_triggered : List String :=
    if JVal.eqStr severity "critical" then
      ["isolate_host", "block_ip", "notify_security_team"]
    else if JVal.eqStr severity "high" then
      ["monitor_host", "alert_analyst"]
    else []
  (JVal.obj [
    ("actions", JVal.arr (actions_triggered.map JVal.str)),
    ("duration_ms", JVal.num 0),
    ("note", JVal.str "Shuffle integration pending")],
   m.record_stage_time "response" 0)

/-- `_should_create_case(triage_result)`: the triage severity (key always
present in the stage output, though possibly null) must sit at or above
`thehive_threshold` in `threshold_order`.  `list.index` raises
`ValueError` — the one exception reachable inside `process_alert`'s try
block, since every stage catches its own errors — when the threshold or
the severity is not one of the five levels (including a non-string
severity). -/
def should_create_case (p : AlertPipeline) (triage_result : JVal) :
    Except String Bool :=
  let severity := JVal.jgetD triage_result "severity" (JVal.str "medium")
  match indexOf threshold_order p.thehive_threshold with
  | none => Except.error "ValueError: threshold is not in list"
  | some threshold_idx =>
    match severity with
    | JVal.str s =>
      match indexOf threshold_order s with
      | none => Except.error "ValueError: severity is not in list"
      | some severity_idx => Except.ok (decide (threshold_idx ≤ severity_idx))
    | _ => Except.error "ValueError: severity is not in list"

end AlertPipeline

/-- The observable fields of a `pipeline_result` dict: alert id, the stage
map in insertion order, the actions list, the final `PipelineStage` value
and the recorded error.  (`timestamp` and `processing_time_ms` are
wall-clock outputs outside the model; intermediate `final_status`
assignments are overwritten before the dict is returned, so only the
terminal value — `completed`, or `failed` from the except-handler — is
observable.) -/
structure RunOut where
  alert_id : JVal
  stages : List (String × JVal)
  actions : List String
  final_status : String
  error : Option String

namespace AlertPipeline

/-- `process_alert(alert)`.  Stages 1–5 in order; each stage catches its
own errors (detection and triage fall back, enrichment / case creation /
response record the error), so the only raise reachable inside the
top-level try is `_should_create_case`'s `ValueError`; `event_bus.publish`
catches each handler's exception itself.  The except-handler sets
`final_status = "failed"`, records `str(e)` and increments `total_failed`;
the success path marks `completed` and increments `total_processed`. -/
def process_alert (p : AlertPipeline) (m : PipelineMetrics) (alert : JVal) :
    RunOut × PipelineMetrics :=
  let alert_id := JVal.jgetD alert "id" (JVal.str "unknown")
  let dm := p.ml_detection_stage m alert
  let tm := p.triage_stage dm.2 alert dm.1
  let stages1 : List (String × JVal) := [("ml_detection", dm.1), ("triage", tm.1)]
  let severity := JVal.jgetD tm.1 "severity" (JVal.str "medium")
  let m2 := tm.2.record_severity severity
  let sm :=
    if p.enable_rag then
      let em := p.enrichment_stage m2 alert tm.1
      (stages1 ++ [("enrichment", em.1)], em.2)
    else (stages1, m2)
  match p.should_create_case tm.1 with
  | Except.error e =>
    ({ alert_id := alert_id, stages := sm.1, actions := [],
       final_status := "failed", error := some e },
     { sm.2 with total_failed := sm.2.total_failed + 1 })
  | Except.ok docase =>
    let cm :=
      if docase then
        let km := p.case_creation_stage sm.2 alert tm.1 (sm.1.lookup "enrichment")
        (sm.1 ++ [("case_creation", km.1)], ["case_created"], km.2)
      else (sm.1, [], sm.2)
    let rm :=
      if JVal.eqStr severity "critical" || JVal.eqStr severity "high" then
        let qm := response_stage cm.2.2 tm.1
        (cm.1 ++ [("response", qm.1)], cm.2.1 ++ ["response_triggered"], qm.2)
      else cm
    ({ alert_id := alert_id, stages := rm.1, actions := rm.2.1,
       final_status := "completed", error := none },
     { rm.2.2 with total_processed := rm.2.2.total_processed + 1 })

/-- `batch_process(alerts)`: every alert runs through `process_alert`
under a width-10 semaphore and the results are gathered positionally
(`asyncio.gather(..., return_exceptions=True)`; since `process_alert`
returns instead of raising, the gather loop's exception-to-entry branch is
never taken).  The embedding runs the alerts in order threading the shared
metrics — per-alert outputs never read the metrics, so the concurrent
interleaving cannot change them. -/
def batch_process (p : AlertPipeline) (m : PipelineMetrics) :
    List JVal → List RunOut × PipelineMetrics
  | [] => ([], m)
  | a :: rest =>
    let r := p.process_alert m a
    let rs := p.batch_process r.2 rest
    (r.1 :: rs.1, rs.2)

/-- Harness: metrics after a sequence of `process_alert` invocations. -/
def runSeq (p : AlertPipeline) (m : PipelineMetrics) :
    List JVal → PipelineMetrics
  | [] => m
  | a :: rest => p.runSeq (p.process_alert m a).2 rest

/-- The triage-stage output of a `process_alert` run — the exact value the
run stores under the `triage` key and feeds to `_should_create_case` and
the response decision. -/
def triage_out (p : AlertPipeline) (m : PipelineMetrics) (alert : JVal) : JVal :=
  (p.triage_stage (p.ml_detection_stage m alert).2 alert
    (p.ml_detection_stage m alert).1).1

/-- The severity a run works with:
`triage_result.get("severity", "medium")`. -/
def run_severity (p : AlertPipeline) (m : PipelineMetrics) (alert : JVal) : JVal :=
  JVal.jgetD (triage_out p m alert) "severity" (JVal.str "medium")

end AlertPipeline

/-- A pipeline whose collaborators all succeed; triage assigns severity
"low", except that an alert with id "a3" receives a severity outside the
five-level scale (which sends `_should_create_case` into its
`ValueError`). -/
def demoPipeline : AlertPipeline :=
  { predict := fun _ => Except.ok (JVal.obj
      [("prediction", JVal.str "BENIGN"), ("confidence", JVal.num 1),
       ("model_used", JVal.str "random_forest")]),
    analyze_alert := fun a => Except.ok (JVal.obj
      [("severity", if JVal.eqStr (JVal.jget a "id") "a3" then JVal.str "bogus"
        else JVal.str "low")]),
    retrieve := fun _ => Except.ok (JVal.obj [("results", JVal.arr [])]),
    create_case := fun _ => Except.ok (JVal.obj [("id", JVal.str "c1")]),
    enable_ml := true,
    enable_rag := true,
    thehive_threshold := "high",
    thehive_base_url := "http://thehive:9000" }

/-- A minimal alert dict with only an id. -/
def demoAlert (i : String) : JVal := JVal.obj [("id", JVal.str i)]

/-- A five-alert batch whose third member drives the pipeline into its
uncaught `ValueError`. -/
def demoBatch : List JVal :=
  [demoAlert "a1", demoAlert "a2", demoAlert "a3", demoAlert "a4", demoAlert "a5"]

/-- A pipeline whose detection collaborator always fails (connection
refused) while the other collaborators succeed with severity "low". -/
def failDetectPipeline : AlertPipeline :=
  { predict := fun _ => Except.error "Connection refused",
    analyze_alert := fun _ => Except.ok (JVal.obj [("severity", JVal.str "low")]),
    retrieve := fun _ => Except.ok (JVal.obj [("results", JVal.arr [])]),
    create_case := fun _ => Except.ok (JVal.obj [("id", JVal.str "c1")]),
    enable_ml := true,
    enable_rag := false,
    thehive_threshold := "high",
    thehive_base_url := "http://thehive:9000" }

/-- An alert carrying a pre-extracted (truthy) feature vector. -/
def featAlert : JVal :=
  JVal.obj [("id", JVal.str "a1"), ("features", JVal.arr [JVal.num 1])]


/-! ## Lemmas and claim theorems -/

namespace SlidingWindowRateLimiter

@[simp] lemma pruneOld_nil (cutoff : Rat) : pruneOld cutoff [] = [] := rfl

lemma pruneOld_cons (cutoff t : Rat) (ts : List Rat) :
    pruneOld cutoff (t :: ts) =
      if t < cutoff then pruneOld cutoff ts else t :: ts := rfl

/-- Pruning keeps the list unchanged as soon as the head is not older than
the cutoff (the while loop stops at the first retained entry). -/
lemma pruneOld_of_head_ge (cutoff t : Rat) (ts : List Rat) (h : cutoff ≤ t) :
    pruneOld cutoff (t :: ts) = t :: ts := by
  simp [pruneOld_cons, not_lt.mpr h]

/-- Pruning is idempotent. -/
lemma pruneOld_idem (cutoff : Rat) (ts : List Rat) :
    pruneOld cutoff (pruneOld cutoff ts) = pruneOld cutoff ts := by
  induction ts with
  | nil => rfl
  | cons t ts ih =>
      by_cases h : t < cutoff
      · simp [pruneOld_cons, h, ih]
      · simp [pruneOld_cons, h]

/-- What pruning removes: a front segment, every removed entry strictly
older than the cutoff. -/
lemma pruneOld_spec (cutoff : Rat) (ts : List Rat) :
    ∃ dropped, ts = dropped ++ pruneOld cutoff ts ∧ ∀ x ∈ dropped, x < cutoff := by
  induction ts with
  | nil => exact ⟨[], rfl, by simp⟩
  | cons t ts ih =>
      by_cases h : t < cutoff
      · obtain ⟨d, hd, hall⟩ := ih
        refine ⟨t :: d, ?_, ?_⟩
        · simp [pruneOld_cons, h]
          exact hd
        · intro x hx
          rcases List.mem_cons.mp hx with rfl | hx
          · exact h
          · exact hall x hx
      · exact ⟨[], by simp [pruneOld_cons, h], by simp⟩

@[simp] lemma cleanup_requests_per_window (l : SlidingWindowRateLimiter) (t : Rat) :
    (cleanup l t).requests_per_window = l.requests_per_window := by
  unfold cleanup; split <;> rfl

@[simp] lemma cleanup_window_seconds (l : SlidingWindowRateLimiter) (t : Rat) :
    (cleanup l t).window_seconds = l.window_seconds := by
  unfold cleanup; split <;> rfl

@[simp] lemma cleanup_cleanup_interval (l : SlidingWindowRateLimiter) (t : Rat) :
    (cleanup l t).cleanup_interval = l.cleanup_interval := by
  unfold cleanup; split <;> rfl

/-- Pruning after cleanup with the same current time equals pruning the
original log: the cleanup sweep uses the identical cutoff, and pruning is
idempotent. -/
lemma pruneOld_cleanup (l : SlidingWindowRateLimiter) (now : Rat) (c : String) :
    pruneOld (now - l.window_seconds) ((cleanup l now).request_log c)
      = pruneOld (now - l.window_seconds) (l.request_log c) := by
  unfold cleanup
  split
  · rfl
  · simp [pruneOld_idem]

/-- Characterization of an admitted call: if the pruned history is below the
limit, the call returns `(true, none)` and appends `current_time` to the
pruned history; the configuration fields are unchanged. -/
lemma is_allowed_admit {l : SlidingWindowRateLimiter} {c : String} {now : Rat}
    (h : (pruneOld (now - l.window_seconds) (l.request_log c)).length < l.requests_per_window) :
    ∃ l', is_allowed l c now = some ((true, none), l') ∧
      l'.request_log c = pruneOld (now - l.window_seconds) (l.request_log c) ++ [now] ∧
      l'.requests_per_window = l.requests_per_window ∧
      l'.window_seconds = l.window_seconds ∧
      l'.cleanup_interval = l.cleanup_interval := by
  unfold is_allowed
  simp only [pruneOld_cleanup, cleanup_requests_per_window, not_le.mpr h, if_false]
  exact ⟨_, rfl, by simp, by simp, by simp, by simp⟩

/-- Characterization of a rejected call: if the pruned history has reached
the limit and is non-empty with oldest entry `o`, the call returns
`(false, max 0 (o + window - now))` and stores exactly the pruned history
(no timestamp is appended). -/
lemma is_allowed_reject {l : SlidingWindowRateLimiter} {c : String} {now o : Rat}
    {rest : List Rat}
    (hts : pruneOld (now - l.window_seconds) (l.request_log c) = o :: rest)
    (hL : l.requests_per_window ≤ (o :: rest).length) :
    ∃ l', is_allowed l c now =
        some ((false, some (max 0 (o + l.window_seconds - now))), l') ∧
      l'.request_log c = o :: rest ∧
      l'.requests_per_window = l.requests_per_window ∧
      l'.window_seconds = l.window_seconds ∧
      l'.cleanup_interval = l.cleanup_interval := by
  unfold is_allowed
  simp only [pruneOld_cleanup, cleanup_requests_per_window, cleanup_window_seconds, hts,
    if_pos hL, List.head?_cons]
  exact ⟨_, rfl, by simp, by simp, by simp, by simp⟩

/-- Burst induction kernel: the client's stored history has oldest entry
`t0`; every remaining call happens no later than `t0 + window`, so pruning
never removes anything.  While calls remain beyond the capacity left, each
is admitted; the final call (the `(limit+1)`th overall) is rejected with
`retry_after = max 0 (t0 + window - t_last)`. -/
lemma burst_go (c : String) (t0 : Rat) (rest : List Rat) :
    ∀ (t : Rat) (l : SlidingWindowRateLimiter) (hist : List Rat),
      l.request_log c = t0 :: hist →
      (t0 :: hist).length + (t :: rest).length = l.requests_per_window + 1 →
      (∀ x ∈ t :: rest, x ≤ t0 + l.window_seconds) →
      ∃ l', runCalls l ((t :: rest).map (fun x => (c, x))) =
        some (List.replicate rest.length (true, none) ++
          [(false, some (max 0 (t0 + l.window_seconds - (t :: rest).getLastD t0)))], l') := by
  induction rest with
  | nil =>
      intro t l hist hlog hlen hin
      have hd : pruneOld (t - l.window_seconds) (l.request_log c) = t0 :: hist := by
        rw [hlog]
        exact pruneOld_of_head_ge _ _ _ (by
          have := hin t (by simp)
          linarith)
      have hL : l.requests_per_window ≤ (t0 :: hist).length := by
        simp only [List.length_cons, List.length_nil] at hlen ⊢; omega
      obtain ⟨l', hrun, _, _, _, _⟩ := is_allowed_reject hd hL
      refine ⟨l', ?_⟩
      simp [runCalls, hrun]
  | cons t' rest ih =>
      intro t l hist hlog hlen hin
      have hd : pruneOld (t - l.window_seconds) (l.request_log c) = t0 :: hist := by
        rw [hlog]
        exact pruneOld_of_head_ge _ _ _ (by
          have := hin t (by simp)
          linarith)
      have hlt : (pruneOld (t - l.window_seconds) (l.request_log c)).length
          < l.requests_per_window := by
        rw [hd]; simp at hlen ⊢; omega
      obtain ⟨l1, hrun, hlog1, hrpw1, hws1, _⟩ := is_allowed_admit hlt
      rw [hd] at hlog1
      have hin' : ∀ x ∈ t' :: rest, x ≤ t0 + l1.window_seconds := by
        rw [hws1]
        intro x hx
        exact hin x (List.mem_cons_of_mem _ hx)
      have hlen' : (t0 :: (hist ++ [t])).length + (t' :: rest).length
          = l1.requests_per_window + 1 := by
        rw [hrpw1]; simp at hlen ⊢; omega
      obtain ⟨l', hrun'⟩ := ih t' l1 (hist ++ [t]) (by rw [hlog1]; rfl) hlen' hin'
      refine ⟨l', ?_⟩
      rw [List.map_cons, runCalls, hrun]
      show (runCalls l1 (List.map (fun x => (c, x)) (t' :: rest))).map
          (fun p => (((true, none) : Bool × Option Rat) :: p.1, p.2)) = _
      rw [hrun']
      simp [List.replicate_succ, List.getLastD_cons, hws1]

/-- The default (possibly empty) last element of a non-empty list is one of
its elements. -/
lemma getLastD_cons_mem (b : Rat) (l : List Rat) (d : Rat) :
    (b :: l).getLastD d ∈ b :: l := by
  induction l generalizing b with
  | nil => simp [List.getLastD]
  | cons e l ih =>
      rw [List.getLastD_cons]
      exact List.mem_cons_of_mem b (ih e)

end SlidingWindowRateLimiter

open SlidingWindowRateLimiter in
/-- **C1 (counterexample).**  The claim asserts that the `(L+1)`th call
within a trailing `W`-length interval is rejected with `retry_after > 0`.
With `L = 1`, `W = 60` and calls at `t = 0` and `t = 60`, the code retains
the `t = 0` timestamp at `t = 60` (the pruning condition is strict:
`timestamps[0] < cutoff`), so both calls fall in the code's own trailing
window; the second call is rejected with `retry_after = 0 + 60 - 60 = 0`,
which is not `> 0`.  (Under the half-open reading of the interval the claim
fails at the same input in the other direction: the `t = 60` call would be
the only call in the interval, yet it is rejected.) -/
theorem C1_sliding_window_counterexample :
    ((runCalls (init 1 60 300 0) [("A", (0:Rat)), ("A", 60)]).map Prod.fst
      = some [(true, none), (false, some 0)]) ∧ ¬ ((0 : Rat) > 0) := by
  exact ⟨by norm_num [runCalls, is_allowed, cleanup, init, pruneOld], lt_irrefl 0⟩

open SlidingWindowRateLimiter in
/-- **C1 (amended).**  Sliding-window admission for a burst: a client with
no recorded history makes `L + 1` calls at times `t0, t1, …, t_L` where
every later call lies in the closed window `[t0, t0 + W]`.  The first `L`
calls are admitted with `(true, none)`; the `(L+1)`th is rejected with
`retry_after = t0 + W - t_last`, which satisfies `0 ≤ retry_after ≤ W`
(it is `> 0` exactly when the burst spans strictly less than `W`; at a span
of exactly `W` it is `0`, the boundary on which the original claim fails).
In particular `L = 3`, `W = 60`, calls at `t = 0, 1, 2, 3` give admissions
`[true, true, true, false]` and `retry_after = 57`. -/
theorem C1_sliding_window_burst (l : SlidingWindowRateLimiter) (c : String)
    (t0 : Rat) (rest : List Rat)
    (hfresh : l.request_log c = [])
    (hlen : rest.length = l.requests_per_window)
    (hpos : 1 ≤ l.requests_per_window)
    (hlo : ∀ x ∈ rest, t0 ≤ x)
    (hhi : ∀ x ∈ rest, x ≤ t0 + l.window_seconds) :
    ∃ l', runCalls l ((t0 :: rest).map (fun x => (c, x))) =
        some (List.replicate l.requests_per_window (true, none) ++
          [(false, some (t0 + l.window_seconds - rest.getLastD t0))], l') ∧
      0 ≤ t0 + l.window_seconds - rest.getLastD t0 ∧
      t0 + l.window_seconds - rest.getLastD t0 ≤ l.window_seconds := by
  rcases rest with _ | ⟨t1, rest'⟩
  · simp at hlen; omega
  · have hfirst : (pruneOld (t0 - l.window_seconds) (l.request_log c)).length
        < l.requests_per_window := by
      rw [hfresh]; simpa using hpos
    obtain ⟨l1, hrun1, hlog1, hrpw1, hws1, _⟩ := is_allowed_admit hfirst
    rw [hfresh] at hlog1
    simp only [pruneOld_nil, List.nil_append] at hlog1
    have hlen1 : ((t0 : Rat) :: ([] : List Rat)).length + (t1 :: rest').length
        = l1.requests_per_window + 1 := by
      rw [hrpw1]
      simp only [List.length_cons, List.length_nil] at hlen ⊢
      omega
    have hin1 : ∀ x ∈ t1 :: rest', x ≤ t0 + l1.window_seconds := by
      rw [hws1]; exact hhi
    obtain ⟨l', hrun'⟩ := burst_go c t0 rest' t1 l1 [] hlog1 hlen1 hin1
    have hlast_mem : (t1 :: rest').getLastD t0 ∈ t1 :: rest' :=
      getLastD_cons_mem t1 rest' t0
    have hlastlo : t0 ≤ (t1 :: rest').getLastD t0 := hlo _ hlast_mem
    have hlasthi : (t1 :: rest').getLastD t0 ≤ t0 + l.window_seconds := hhi _ hlast_mem
    have hretry0 : (0 : Rat) ≤ t0 + l.window_seconds - (t1 :: rest').getLastD t0 := by
      linarith
    refine ⟨l', ?_, hretry0, by linarith⟩
    rw [List.map_cons, runCalls, hrun1]
    show (runCalls l1 (List.map (fun x => (c, x)) (t1 :: rest'))).map
        (fun p => (((true, none) : Bool × Option Rat) :: p.1, p.2)) = _
    rw [hrun']
    have hrepl : l.requests_per_window = rest'.length + 1 := by
      simp only [List.length_cons] at hlen; omega
    simp only [Option.map_some, hws1, hrepl, List.replicate_succ, List.cons_append,
      max_eq_right hretry0]
    rfl

open SlidingWindowRateLimiter in
/-- Witness for C1 (amended): limiter(limit=3, window=60s), client "A",
calls at t = 0, 1, 2, 3 — admissions `[true, true, true, false]`,
`retry_after = 57`. -/
theorem C1_sliding_window_burst_witness :
    ∃ l', runCalls (init 3 60 300 0)
        (([0, 1, 2, 3] : List Rat).map (fun x => ("A", x))) =
      some ([(true, none), (true, none), (true, none), (false, some 57)], l') := by
  obtain ⟨l', h, -, -⟩ :=
    C1_sliding_window_burst (init 3 60 300 0) "A" 0 [1, 2, 3] rfl
      (by norm_num [init])
      (by norm_num [init])
      (by intro x hx; simp at hx; rcases hx with rfl | rfl | rfl <;> norm_num)
      (by intro x hx; simp at hx; rcases hx with rfl | rfl | rfl <;> norm_num [init])
  refine ⟨l', ?_⟩
  rw [h]
  norm_num [init, List.getLastD_cons, List.getLastD, List.replicate_succ]

open SlidingWindowRateLimiter in
/-- **C10 (confirmed).**  For a limiter configured with
`requests_per_window ≥ 1`, `is_allowed` is total: the rejection branch's
read of `timestamps[0]` always succeeds, because rejection requires at
least `requests_per_window ≥ 1` retained timestamps.  (`is_allowed`
returns `none` exactly where the Python method would raise `IndexError`.) -/
theorem C10_is_allowed_total (l : SlidingWindowRateLimiter) (c : String)
    (now : Rat) (h : 1 ≤ l.requests_per_window) :
    (is_allowed l c now).isSome = true := by
  simp only [is_allowed]
  split
  · next hle =>
      cases hts : pruneOld (now - l.window_seconds) ((cleanup l now).request_log c) with
      | nil =>
          rw [hts, cleanup_requests_per_window] at hle
          simp at hle
          omega
      | cons o rest => simp
  · simp

open SlidingWindowRateLimiter in
/-- Witness for C10: a limiter with limit 1 and a rejected-state history
still answers (here: fresh limiter, first call at t = 5 succeeds). -/
theorem C10_is_allowed_total_witness :
    (is_allowed (init 1 60 300 0) "A" 5).isSome = true :=
  C10_is_allowed_total (init 1 60 300 0) "A" 5 (by norm_num [init])

open SlidingWindowRateLimiter in
/-- **C9 (confirmed).**  A rejected `is_allowed` call appends no timestamp:
the stored history afterwards is exactly the pruned prior history — the
prior history minus a front segment of entries strictly older than
`now - window_seconds`.  A rejected request therefore never consumes
admission budget. -/
theorem C9_reject_frame (l : SlidingWindowRateLimiter) (c : String) (now : Rat)
    (r : Option Rat) (l' : SlidingWindowRateLimiter)
    (h : is_allowed l c now = some ((false, r), l')) :
    l'.request_log c = pruneOld (now - l.window_seconds) (l.request_log c) ∧
    ∃ dropped, l.request_log c = dropped ++ l'.request_log c ∧
      ∀ x ∈ dropped, x < now - l.window_seconds := by
  have hmain : l'.request_log c = pruneOld (now - l.window_seconds) (l.request_log c) := by
    simp only [is_allowed] at h
    split at h
    · split at h
      · exact absurd h (by simp)
      · simp only [Option.some.injEq, Prod.mk.injEq] at h
        obtain ⟨-, h2⟩ := h
        rw [← h2]
        simp [pruneOld_cleanup]
    · simp only [Option.some.injEq, Prod.mk.injEq] at h
      exact absurd h.1.1 (by simp)
  refine ⟨hmain, ?_⟩
  obtain ⟨d, hd, hall⟩ := pruneOld_spec (now - l.window_seconds) (l.request_log c)
  exact ⟨d, by rw [hmain]; exact hd, hall⟩

namespace SlidingWindowRateLimiter

/-- On a sorted history with no entry exactly at the cutoff, the count of
entries strictly newer than the cutoff equals the length of the pruned
history. -/
lemma filter_length_eq_pruneOld (cutoff : Rat) (ts : List Rat)
    (hs : ts.Sorted (· ≤ ·)) (hnb : ∀ x ∈ ts, x ≠ cutoff) :
    (ts.filter (fun t => cutoff < t)).length = (pruneOld cutoff ts).length := by
  induction ts with
  | nil => rfl
  | cons t ts ih =>
      obtain ⟨hall, hs'⟩ := List.sorted_cons.mp hs
      by_cases h : t < cutoff
      · have hnt : ¬ cutoff < t := not_lt.mpr (le_of_lt h)
        rw [pruneOld_cons, if_pos h]
        have hf : List.filter (fun s => decide (cutoff < s)) (t :: ts)
            = List.filter (fun s => decide (cutoff < s)) ts := by
          simp [List.filter_cons, hnt]
        rw [hf]
        exact ih hs' (fun x hx => hnb x (List.mem_cons_of_mem _ hx))
      · have ht : cutoff < t :=
          lt_of_le_of_ne (not_lt.mp h)
            (fun e => hnb t (List.mem_cons_self _ _) e.symm)
        rw [pruneOld_cons, if_neg h]
        have hf : List.filter (fun s => decide (cutoff < s)) (t :: ts)
            = t :: List.filter (fun s => decide (cutoff < s)) ts := by
          simp [List.filter_cons, ht]
        rw [hf]
        have hself : List.filter (fun s => decide (cutoff < s)) ts = ts :=
          List.filter_eq_self.mpr
            (fun x hx => by simpa using lt_of_lt_of_le ht (hall x hx))
        rw [hself]

end SlidingWindowRateLimiter

open SlidingWindowRateLimiter in
/-- **C8 (counterexample).**  The claim says `get_remaining_requests`
counts by "the same pruning rule that `is_allowed` applies".  It does not:
`is_allowed` retains timestamps `≥ cutoff` (pruning removes `< cutoff`),
while `get_remaining_requests` counts only timestamps `> cutoff`.  With
limit 1, window 60, one timestamp at `t = 0` and a query at `t = 60`, the
claimed value is `max 0 (1 - 1) = 0` (the timestamp is retained by the
pruning rule) but the method returns `1`. -/
theorem C8_remaining_counterexample :
    (get_remaining_requests boundaryLimiter "A" 60).1 = 1 ∧
    max 0 ((boundaryLimiter.requests_per_window : Int) -
      ((pruneOld (60 - boundaryLimiter.window_seconds)
        (boundaryLimiter.request_log "A")).length : Int)) = 0 := by
  constructor
  · norm_num [get_remaining_requests, boundaryLimiter]
  · norm_num [pruneOld, boundaryLimiter]

open SlidingWindowRateLimiter in
/-- **C8 (amended).**  `get_remaining_requests` never mutates the limiter
state, and returns `max 0 (requests_per_window - count of timestamps
strictly newer than the cutoff)`; on a sorted history with no timestamp
exactly at the cutoff this count coincides with the pruning rule of
`is_allowed` (the two rules differ exactly on cutoff-boundary
timestamps). -/
theorem C8_remaining_read_only (l : SlidingWindowRateLimiter) (c : String)
    (now : Rat)
    (hs : (l.request_log c).Sorted (· ≤ ·))
    (hnb : ∀ x ∈ l.request_log c, x ≠ now - l.window_seconds) :
    (get_remaining_requests l c now).2 = l ∧
    (get_remaining_requests l c now).1 =
      max 0 ((l.requests_per_window : Int) -
        ((pruneOld (now - l.window_seconds) (l.request_log c)).length : Int)) := by
  refine ⟨rfl, ?_⟩
  simp only [get_remaining_requests]
  rw [filter_length_eq_pruneOld _ _ hs hnb]

open SlidingWindowRateLimiter in
/-- Witness for C8 (amended): sorted history `[10, 20]`, query at `t = 30`,
window 60 — no boundary timestamp, state returned unchanged. -/
theorem C8_remaining_read_only_witness :
    (get_remaining_requests sortedLimiter "A" 30).2 = sortedLimiter ∧
    (get_remaining_requests sortedLimiter "A" 30).1 =
      max 0 ((sortedLimiter.requests_per_window : Int) -
        ((pruneOld (30 - sortedLimiter.window_seconds)
          (sortedLimiter.request_log "A")).length : Int)) :=
  C8_remaining_read_only sortedLimiter "A" 30
    (by norm_num [sortedLimiter, List.sorted_cons])
    (by intro x hx; norm_num [sortedLimiter] at hx; rcases hx with rfl | rfl <;> norm_num [sortedLimiter])

open SlidingWindowRateLimiter in
/-- Witness for C9: limit-1 limiter with history `[10]` for "A"; the call
at `t = 30` is rejected with `retry_after = 40` and the stored history is
exactly the pruned prior history. -/
theorem C9_reject_frame_witness :
    ∃ l', is_allowed rejLimiter "A" 30 = some ((false, some 40), l') ∧
      l'.request_log "A" =
        pruneOld (30 - rejLimiter.window_seconds) (rejLimiter.request_log "A") := by
  have h : (is_allowed rejLimiter "A" 30).map (fun p => p.1) = some (false, some 40) := by
    norm_num [is_allowed, cleanup, rejLimiter, pruneOld]
  cases hres : is_allowed rejLimiter "A" 30 with
  | none => rw [hres] at h; simp at h
  | some p =>
      obtain ⟨⟨b, r⟩, l'⟩ := p
      rw [hres] at h
      simp at h
      obtain ⟨hb, hr⟩ := h
      subst hb; subst hr
      exact ⟨l', rfl, (C9_reject_frame rejLimiter "A" 30 (some 40) l' hres).1⟩

/-- **C5 (counterexample).**  The claim says a 4xx application error "is
surfaced to the caller immediately, without any retry attempt".  It is
not: `async_retry`'s default exception filter is `(Exception,)`, which
includes `HTTPStatusError`.  With a transport that returns 404 on attempt
1 and 200 afterwards, the first attempt raises the 4xx error, yet
`ServiceClient.post` retries and returns the attempt-2 success — the 4xx
was neither surfaced nor final. -/
theorem C5_no_retry_4xx_counterexample :
    request_attempt transport404then200 1
        = Except.error (HttpError.http_status 404) ∧
    ServiceClient.post transport404then200 = some (Except.ok ⟨200⟩) := by
  constructor <;> rfl

/-- **C5 (amended).**  The retry wrapper on `get`/`post`/`put` (all three
are the same decorator application) retries *every* failed attempt
uniformly — timeout, connection failure, or `HTTPStatusError` of any
status, 4xx included — up to 3 attempts: a success at any attempt is
returned, and when all 3 attempts fail the last error is raised to the
caller. -/
theorem C5_retry_policy (transport : Nat → Except HttpError HttpResponse) :
    (∀ r, request_attempt transport 1 = Except.ok r →
       ServiceClient.post transport = some (Except.ok r)) ∧
    (∀ e1 r, request_attempt transport 1 = Except.error e1 →
       request_attempt transport 2 = Except.ok r →
       ServiceClient.post transport = some (Except.ok r)) ∧
    (∀ e1 e2 r, request_attempt transport 1 = Except.error e1 →
       request_attempt transport 2 = Except.error e2 →
       request_attempt transport 3 = Except.ok r →
       ServiceClient.post transport = some (Except.ok r)) ∧
    (∀ e1 e2 e3, request_attempt transport 1 = Except.error e1 →
       request_attempt transport 2 = Except.error e2 →
       request_attempt transport 3 = Except.error e3 →
       ServiceClient.post transport = some (Except.error e3)) := by
  refine ⟨?_, ?_, ?_, ?_⟩
  · intro r h1
    simp [ServiceClient.post, async_retry, retry_from, h1]
  · intro e1 r h1 h2
    simp [ServiceClient.post, async_retry, retry_from, h1, h2]
  · intro e1 e2 r h1 h2 h3
    simp [ServiceClient.post, async_retry, retry_from, h1, h2, h3]
  · intro e1 e2 e3 h1 h2 h3
    simp [ServiceClient.post, async_retry, retry_from, h1, h2, h3]

/-- Witness for C5 (amended): the 404-then-200 transport is retried after
the 4xx failure and the attempt-2 success is returned. -/
theorem C5_retry_policy_witness :
    ServiceClient.post transport404then200 = some (Except.ok ⟨200⟩) :=
  (C5_retry_policy transport404then200).2.1 (HttpError.http_status 404) ⟨200⟩
    rfl rfl

namespace PipelineMetrics

@[simp] lemma record_stage_time_tp (m : PipelineMetrics) (s : String) (d : Rat) :
    (m.record_stage_time s d).total_processed = m.total_processed := rfl

@[simp] lemma record_stage_time_tf (m : PipelineMetrics) (s : String) (d : Rat) :
    (m.record_stage_time s d).total_failed = m.total_failed := rfl

@[simp] lemma record_severity_tp (m : PipelineMetrics) (v : JVal) :
    (m.record_severity v).total_processed = m.total_processed := rfl

@[simp] lemma record_severity_tf (m : PipelineMetrics) (v : JVal) :
    (m.record_severity v).total_failed = m.total_failed := rfl

end PipelineMetrics

namespace AlertPipeline

@[simp] lemma ml_detection_stage_tp (p : AlertPipeline) (m : PipelineMetrics) (a : JVal) :
    (p.ml_detection_stage m a).2.total_processed = m.total_processed := by
  unfold ml_detection_stage
  repeat' split
  all_goals rfl

@[simp] lemma ml_detection_stage_tf (p : AlertPipeline) (m : PipelineMetrics) (a : JVal) :
    (p.ml_detection_stage m a).2.total_failed = m.total_failed := by
  unfold ml_detection_stage
  repeat' split
  all_goals rfl

@[simp] lemma triage_stage_tp (p : AlertPipeline) (m : PipelineMetrics) (a r : JVal) :
    (p.triage_stage m a r).2.total_processed = m.total_processed := by
  unfold triage_stage
  repeat' split
  all_goals rfl

@[simp] lemma triage_stage_tf (p : AlertPipeline) (m : PipelineMetrics) (a r : JVal) :
    (p.triage_stage m a r).2.total_failed = m.total_failed := by
  unfold triage_stage
  repeat' split
  all_goals rfl

@[simp] lemma enrichment_stage_tp (p : AlertPipeline) (m : PipelineMetrics) (a t : JVal) :
    (p.enrichment_stage m a t).2.total_processed = m.total_processed := by
  simp only [enrichment_stage]
  repeat' split
  all_goals rfl

@[simp] lemma enrichment_stage_tf (p : AlertPipeline) (m : PipelineMetrics) (a t : JVal) :
    (p.enrichment_stage m a t).2.total_failed = m.total_failed := by
  simp only [enrichment_stage]
  repeat' split
  all_goals rfl

@[simp] lemma case_creation_stage_tp (p : AlertPipeline) (m : PipelineMetrics)
    (a t : JVal) (er : Option JVal) :
    (p.case_creation_stage m a t er).2.total_processed = m.total_processed := by
  simp only [case_creation_stage]
  repeat' split
  all_goals rfl

@[simp] lemma case_creation_stage_tf (p : AlertPipeline) (m : PipelineMetrics)
    (a t : JVal) (er : Option JVal) :
    (p.case_creation_stage m a t er).2.total_failed = m.total_failed := by
  simp only [case_creation_stage]
  repeat' split
  all_goals rfl

@[simp] lemma response_stage_tp (m : PipelineMetrics) (t : JVal) :
    (response_stage m t).2.total_processed = m.total_processed := rfl

@[simp] lemma response_stage_tf (m : PipelineMetrics) (t : JVal) :
    (response_stage m t).2.total_failed = m.total_failed := rfl

/-- Each `process_alert` run settles in exactly one of two ways: the
`failed` path (error recorded, `total_failed` incremented, `total_processed`
untouched) or the `completed` path (`total_processed` incremented,
`total_failed` untouched). -/
lemma process_alert_dichotomy (p : AlertPipeline) (m : PipelineMetrics) (alert : JVal) :
    ((p.process_alert m alert).1.final_status = "failed" ∧
     (p.process_alert m alert).1.error.isSome = true ∧
     (p.process_alert m alert).2.total_failed = m.total_failed + 1 ∧
     (p.process_alert m alert).2.total_processed = m.total_processed) ∨
    ((p.process_alert m alert).1.final_status = "completed" ∧
     (p.process_alert m alert).1.error = none ∧
     (p.process_alert m alert).2.total_processed = m.total_processed + 1 ∧
     (p.process_alert m alert).2.total_failed = m.total_failed) := by
  simp only [process_alert]
  repeat' split
  all_goals simp

end AlertPipeline

open AlertPipeline PipelineMetrics in
/-- **C2 (confirmed).**  `process_alert` always returns a result (it is a
total function of the pipeline, the metrics and the alert, for arbitrary
collaborator behaviour — every stage call is modelled as possibly
raising), and each run either fails — `final_status = "failed"`, the error
recorded in the result, the failure counter incremented — or completes
with `total_processed` incremented.  An unhandled error never propagates
past `process_alert`'s top-level except-handler. -/
theorem C2_process_alert_total (p : AlertPipeline) (m : PipelineMetrics) (alert : JVal) :
    ((p.process_alert m alert).1.final_status = "failed" ∧
     (p.process_alert m alert).1.error.isSome = true ∧
     (p.process_alert m alert).2.total_failed = m.total_failed + 1 ∧
     (p.process_alert m alert).2.total_processed = m.total_processed) ∨
    ((p.process_alert m alert).1.final_status = "completed" ∧
     (p.process_alert m alert).1.error = none ∧
     (p.process_alert m alert).2.total_processed = m.total_processed + 1 ∧
     (p.process_alert m alert).2.total_failed = m.total_failed) :=
  process_alert_dichotomy p m alert

namespace AlertPipeline

/-- Counter bookkeeping of a run sequence, generalized over the starting
metrics. -/
lemma runSeq_counts (p : AlertPipeline) (alerts : List JVal) :
    ∀ m : PipelineMetrics,
      (p.runSeq m alerts).total_processed + (p.runSeq m alerts).total_failed
        = m.total_processed + m.total_failed + alerts.length := by
  induction alerts with
  | nil => intro m; simp [runSeq]
  | cons a rest ih =>
      intro m
      rw [runSeq, ih]
      rcases process_alert_dichotomy p m a with ⟨-, -, hf, hp⟩ | ⟨-, -, hp, hf⟩ <;>
        rw [hp, hf] <;> simp <;> omega

end AlertPipeline

open AlertPipeline PipelineMetrics in
/-- **C3 (confirmed).**  Starting from fresh metrics, after `N` sequential
`process_alert` invocations `total_processed + total_failed = N` exactly:
each run increments exactly one of the two counters exactly once (the
increments sit on the two disjoint terminal paths of the run). -/
theorem C3_metrics_exact (p : AlertPipeline) (alerts : List JVal) :
    (p.runSeq initMetrics alerts).total_processed +
      (p.runSeq initMetrics alerts).total_failed = alerts.length := by
  have h := runSeq_counts p alerts initMetrics
  simpa [initMetrics] using h

open AlertPipeline PipelineMetrics in
/-- **C6 (amended).**  When `_should_create_case` decides without raising
(`Except.ok docase`), a run's stage map holds exactly the keys
`ml_detection, triage` — in that order — followed by `enrichment` (only
when RAG is enabled), `case_creation` (only when `docase`, i.e. the triage
severity sits at or above the threshold in the ordering
info < low < medium < high < critical), and `response` (only when the
severity is `critical` or `high`); a stage skipped by policy has no entry
at all.  (The original claim's key names `triage_analysis`,
`context_enrichment`, `response_action` are the `PipelineStage` enum
values used for `final_status`, not the keys of the stage map.) -/
theorem C6_stage_map (p : AlertPipeline) (m : PipelineMetrics) (alert : JVal)
    (docase : Bool)
    (hscc : p.should_create_case (triage_out p m alert) = Except.ok docase) :
    (p.process_alert m alert).1.stages.map Prod.fst =
      ["ml_detection", "triage"] ++
      (if p.enable_rag then ["enrichment"] else []) ++
      (if docase then ["case_creation"] else []) ++
      (if JVal.eqStr (run_severity p m alert) "critical" ||
          JVal.eqStr (run_severity p m alert) "high" then ["response"] else []) := by
  simp only [triage_out] at hscc
  simp only [process_alert, run_severity, triage_out, hscc]
  repeat' split
  all_goals simp

open AlertPipeline PipelineMetrics in
/-- **C6 (counterexample).**  The stage map's keys are `ml_detection,
triage, enrichment, case_creation, response` — not the claimed
`triage_analysis`, `context_enrichment`, `response_action` (those are
`PipelineStage` enum values used for `final_status`).  A concrete run
records `["ml_detection", "triage", "enrichment"]`, and contains no
`triage_analysis` or `context_enrichment` key. -/
theorem C6_stage_map_counterexample :
    ((demoPipeline.process_alert initMetrics (demoAlert "a1")).1.stages.map Prod.fst
      = ["ml_detection", "triage", "enrichment"]) ∧
    (((demoPipeline.process_alert initMetrics (demoAlert "a1")).1.stages.map
      Prod.fst).contains "triage_analysis" = false) ∧
    (((demoPipeline.process_alert initMetrics (demoAlert "a1")).1.stages.map
      Prod.fst).contains "context_enrichment" = false) := by
  refine ⟨?_, ?_, ?_⟩ <;> rfl

open AlertPipeline PipelineMetrics in
/-- Witness for C6 (amended): the demo run (severity "low", threshold
"high", RAG enabled) records exactly `ml_detection, triage, enrichment`
and skips `case_creation` and `response`. -/
theorem C6_stage_map_witness :
    (demoPipeline.process_alert initMetrics (demoAlert "a1")).1.stages.map Prod.fst
      = ["ml_detection", "triage", "enrichment"] := by
  have h := C6_stage_map demoPipeline initMetrics (demoAlert "a1") false rfl
  rw [h]
  rfl

open AlertPipeline PipelineMetrics FallbackHandler in
/-- **C4 (amended).**  If every detection-collaborator call fails, the
detection stage records `FallbackHandler.ml_fallback(alert)` — which
carries the `fallback: true` marker — as its output; that same value is
the `ml_result` argument handed to the triage stage, and the run (its
case decision succeeding) still terminates `completed`, not `failed`.
However, the *dict sent to the triage collaborator* contains only the
derived `ml_prediction`/`ml_confidence` keys, not the `fallback` marker
(see the counterexample). -/
theorem C4_detection_fallback (p : AlertPipeline) (m : PipelineMetrics)
    (alert f : JVal) (docase : Bool)
    (hfeat : extract_features alert = some f)
    (htru : JVal.truthy f = true)
    (hml : p.enable_ml = true)
    (hfail : ∀ x, ∃ e, p.predict x = Except.error e)
    (hscc : p.should_create_case (triage_out p m alert) = Except.ok docase) :
    (p.process_alert m alert).1.final_status = "completed" ∧
    (p.process_alert m alert).1.stages.lookup "ml_detection"
      = some (ml_fallback alert) ∧
    JVal.jget (ml_fallback alert) "fallback" = JVal.bool true := by
  obtain ⟨e, he⟩ := hfail f
  have hdet : p.ml_detection_stage m alert = (ml_fallback alert, m) := by
    simp [ml_detection_stage, hfeat, htru, hml, he]
  simp only [triage_out, hdet] at hscc
  refine ⟨?_, ?_, ?_⟩
  · simp only [process_alert, hdet, hscc]
    repeat' split
    all_goals rfl
  · simp only [process_alert, hdet, hscc]
    repeat' split
    all_goals rfl
  · rfl

open AlertPipeline PipelineMetrics FallbackHandler in
/-- **C4 (counterexample).**  The claim says the alert payload passed to
the triage *collaborator* contains the detection fallback's
`fallback: true` marker.  It does not: `_triage_stage` builds
`{**alert, "ml_prediction": …, "ml_confidence": …}`, copying only those
two derived keys.  Concretely, with an always-failing detection
collaborator the run completes and records the fallback (with its marker)
as the detection output, yet the enriched payload handed to
`analyze_alert` has no `fallback` key. -/
theorem C4_fallback_marker_counterexample :
    (failDetectPipeline.process_alert initMetrics featAlert).1.final_status
      = "completed" ∧
    (failDetectPipeline.process_alert initMetrics featAlert).1.stages.lookup
      "ml_detection" = some (ml_fallback featAlert) ∧
    JVal.jget (ml_fallback featAlert) "fallback" = JVal.bool true ∧
    JVal.hasKey (enrichedAlert featAlert (ml_fallback featAlert)) "fallback" = false := by
  refine ⟨?_, ?_, ?_, ?_⟩ <;> rfl

open AlertPipeline PipelineMetrics FallbackHandler in
/-- Witness for C4 (amended), at the concrete always-failing detection
pipeline. -/
theorem C4_detection_fallback_witness :
    (failDetectPipeline.process_alert initMetrics featAlert).1.final_status
      = "completed" ∧
    (failDetectPipeline.process_alert initMetrics featAlert).1.stages.lookup
      "ml_detection" = some (ml_fallback featAlert) ∧
    JVal.jget (ml_fallback featAlert) "fallback" = JVal.bool true :=
  C4_detection_fallback failDetectPipeline initMetrics featAlert
    (JVal.arr [JVal.num 1]) false rfl rfl rfl
    (fun _ => ⟨"Connection refused", rfl⟩) rfl

namespace AlertPipeline

/-- `batch_process` produces one entry per input alert. -/
lemma batch_process_length (p : AlertPipeline) :
    ∀ (m : PipelineMetrics) (alerts : List JVal),
      (p.batch_process m alerts).1.length = alerts.length := by
  intro m alerts
  induction alerts generalizing m with
  | nil => rfl
  | cons a rest ih => simp [batch_process, ih]

end AlertPipeline

open AlertPipeline PipelineMetrics in
/-- **C7 (confirmed).**  `batch_process` returns exactly one result per
input alert, positionally matched: the `i`-th entry is `process_alert`'s
result for the `i`-th alert (under the metrics state current when that
alert ran).  One alert's unhandled failure cannot abort the batch:
concretely, in the five-alert demo batch whose third alert drives the
pipeline into its uncaught `ValueError`, the other four entries complete
and the third entry carries `final_status = "failed"` with the captured
error. -/
theorem C7_batch_positional (p : AlertPipeline) (m : PipelineMetrics)
    (alerts : List JVal) :
    ((p.batch_process m alerts).1.length = alerts.length) ∧
    (∀ i a, alerts.get? i = some a →
      ∃ m', (p.batch_process m alerts).1.get? i
        = some ((p.process_alert m' a).1)) ∧
    ((demoPipeline.batch_process initMetrics demoBatch).1.map RunOut.final_status
      = ["completed", "completed", "failed", "completed", "completed"]) ∧
    (((demoPipeline.batch_process initMetrics demoBatch).1.get? 2).map RunOut.error
      = some (some "ValueError: severity is not in list")) := by
  refine ⟨batch_process_length p m alerts, ?_, by rfl, by rfl⟩
  intro i a
  induction alerts generalizing m i with
  | nil => simp
  | cons b rest ih =>
      cases i with
      | zero =>
          intro h
          simp only [List.get?] at h
          injection h with h
          subst h
          exact ⟨m, rfl⟩
      | succ j =>
          intro h
          simp only [List.get?] at h
          obtain ⟨m', hm'⟩ := ih ((p.process_alert m b).2) j h
          exact ⟨m', hm'⟩

open AlertPipeline PipelineMetrics in
/-- Witness for C7: in the demo batch, entry 2 (the third alert) is the
`process_alert` result of the third alert. -/
theorem C7_batch_positional_witness :
    ∃ m', (demoPipeline.batch_process initMetrics demoBatch).1.get? 2
      = some ((demoPipeline.process_alert m' (demoAlert "a3")).1) :=
  (C7_batch_positional demoPipeline initMetrics demoBatch).2.1 2 (demoAlert "a3") rfl

